import Mathlib

/-!
Shallow embedding of the alertmanager-webhook-servicenow reconciliation core
(src/main.go) and proofs about it.

The embedding models:
  - the alertmanager template payload (template.Data, template.Alert, KV),
    with KV maps represented as association lists of (name, value) pairs;
  - KV.SortedPairs, which in Go collects the map keys, sorts them with
    sort.Strings, and pairs each key with its map value;
  - getGroupKey, which renders the sorted pairs with Go fmt verb %v, giving
    a bracketed, space-separated list of brace-wrapped pairs;
  - dataToIncidentParam, which builds the ServiceNow incident fields;
  - manageIncidents, which performs the lookup / create / update branch.
    The external ServiceNow client (servicenow.go, not part of the core
    source) is modelled as an oracle giving each call's result, and
    manageIncidents returns the list of gateway calls it issues together
    with the error value it returns.

Go string comparison (used by sort.Strings) is embedded as a structural
lexicographic comparison on the character list of a string, so that all
definitions evaluate inside the kernel (UTF-8 byte order coincides with
code-point order, so comparing code points is faithful to Go's byte-wise
comparison).
-/

namespace SnWebhook

/-- Lexicographic comparison of character lists by code point, mirroring
Go's byte-wise string order. -/
def lexLe : List Char → List Char → Bool
  | [], _ => true
  | _ :: _, [] => false
  | a :: as, b :: bs =>
    if a.toNat < b.toNat then true
    else if b.toNat < a.toNat then false
    else lexLe as bs

/-- Go string order as a propositional relation on strings. -/
def strLE (s t : String) : Prop := lexLe s.data t.data = true

instance : DecidableRel strLE :=
  fun s t => inferInstanceAs (Decidable (lexLe s.data t.data = true))

instance : IsTotal String strLE := by
  constructor
  intro s t
  show lexLe s.data t.data = true ∨ lexLe t.data s.data = true
  generalize s.data = as
  generalize t.data = bs
  induction as generalizing bs with
  | nil => left; rfl
  | cons a as ih =>
    cases bs with
    | nil => right; rfl
    | cons b bs =>
      by_cases h1 : a.toNat < b.toNat
      · left; simp [lexLe, h1]
      · by_cases h2 : b.toNat < a.toNat
        · right; simp [lexLe, h2]
        · simp only [lexLe, h1, h2, if_false]
          simpa [h1, h2] using ih bs

instance : IsTrans String strLE := by
  constructor
  intro s t u h h'
  show lexLe s.data u.data = true
  have key : ∀ as bs cs, lexLe as bs = true → lexLe bs cs = true →
      lexLe as cs = true := by
    intro as
    induction as with
    | nil => intro bs cs _ _; rfl
    | cons a as ih =>
      intro bs cs hab hbc
      cases bs with
      | nil => simp [lexLe] at hab
      | cons b bs =>
        cases cs with
        | nil => simp [lexLe] at hbc
        | cons c cs =>
          simp only [lexLe] at hab hbc ⊢
          split_ifs at hab hbc ⊢ <;>
            first
              | rfl
              | omega
              | exact ih bs cs hab hbc
  exact key s.data t.data u.data h h'

instance : IsAntisymm String strLE := by
  constructor
  intro s t h h'
  have key : ∀ as bs, lexLe as bs = true → lexLe bs as = true → as = bs := by
    intro as
    induction as with
    | nil =>
      intro bs _ hba
      cases bs with
      | nil => rfl
      | cons b bs => simp [lexLe] at hba
    | cons a as ih =>
      intro bs hab hba
      cases bs with
      | nil => simp [lexLe] at hab
      | cons b bs =>
        simp only [lexLe] at hab hba
        by_cases h1 : a.toNat < b.toNat
        · simp [h1, Nat.lt_asymm h1] at hba
        · by_cases h2 : b.toNat < a.toNat
          · simp [h2, Nat.lt_asymm h2] at hab
          · simp only [h1, h2, if_false] at hab hba
            have hnat : a.toNat = b.toNat := by omega
            have hc : a = b := Char.ext (UInt32.ext hnat)
            rw [hc, ih bs hab hba]
  have hd : s.data = t.data := key s.data t.data h h'
  cases s; cases t; exact congrArg String.mk hd

/-- Value lookup in a KV map represented as an association list, mirroring
Go map indexing kv[k] (with the string zero value when absent, which never
happens for keys taken from the map itself). -/
def kvGet : List (String × String) → String → String
  | [], _ => ""
  | p :: kv, k => if p.1 = k then p.2 else kvGet kv k

/-- KV.SortedPairs from the alertmanager template package: collect the map
keys, sort them ascending with sort.Strings, and pair each key with its map
value. -/
def sortedPairs (kv : List (String × String)) : List (String × String) :=
  (List.insertionSort strLE (kv.map Prod.fst)).map (fun k => (k, kvGet kv k))

/-- Order on label pairs by name, the order in which SortedPairs emits
them. -/
def pairLE (p q : String × String) : Prop := strLE p.1 q.1

instance : DecidableRel pairLE :=
  fun p q => inferInstanceAs (Decidable (strLE p.1 q.1))

instance : IsTotal (String × String) pairLE :=
  ⟨fun p q => @IsTotal.total String strLE _ p.1 q.1⟩

instance : IsTrans (String × String) pairLE :=
  ⟨fun p q r h h' => @IsTrans.trans String strLE _ p.1 q.1 r.1 h h'⟩

/-- Strict order on label pairs by name; vacuously antisymmetric. -/
def pairLT (p q : String × String) : Prop := strLE p.1 q.1 ∧ p.1 ≠ q.1

instance : IsAntisymm (String × String) pairLT :=
  ⟨fun _ _ h h' => absurd (IsAntisymm.antisymm _ _ h.1 h'.1) h.2⟩

/-- Alert from the alertmanager template package (the fields read by
main.go; StartsAt is kept as its printed rendering). -/
structure Alert where
  status : String
  labels : List (String × String)
  annotations : List (String × String)
  startsAt : String
  deriving DecidableEq

/-- Data from the alertmanager template package (the notification payload
decoded from the webhook body). -/
structure Data where
  receiver : String
  status : String
  alerts : List Alert
  groupLabels : List (String × String)
  commonLabels : List (String × String)
  commonAnnotations : List (String × String)
  externalURL : String
  deriving DecidableEq

/-- ServiceNowConfig from main.go. -/
structure ServiceNowConfig where
  instanceName : String
  userName : String
  password : String
  incidentGroupKeyField : String
  deriving DecidableEq

/-- DefaultIncidentConfig from main.go (Impact and Urgency are json.Number
values, kept as strings). -/
structure DefaultIncidentConfig where
  assignmentGroup : String
  impact : String
  urgency : String
  deriving DecidableEq

/-- Config from main.go. -/
structure Config where
  serviceNow : ServiceNowConfig
  defaultIncident : DefaultIncidentConfig
  deriving DecidableEq

/-- Modelled from the spec: IncidentParam is declared in the ServiceNow
client file, which is not part of the core source; its fields are the ones
main.go populates and section 3 of the spec lists. -/
structure IncidentParam where
  assignmentGroup : String
  callerID : String
  comments : String
  description : String
  impact : String
  shortDescription : String
  groupKey : String
  urgency : String
  deriving DecidableEq

/-- Modelled from the spec: an existing incident returned by the tracker
lookup (ExistingIncidentRef), carrying the opaque sys_id and the
human-readable number that main.go reads through GetSysID and GetNumber. -/
structure Incident where
  sysID : String
  number : String
  deriving DecidableEq

/-- The comma-joined rendering loop over label pairs (groupKeyBuilder in
dataToIncidentParam): a separator is written only once the builder is
nonempty, then the pair is written as name, colon, space, value. -/
def pairsCommaJoined (pairs : List (String × String)) : String :=
  pairs.foldl
    (fun acc p => (if acc.length > 0 then acc ++ ", " else acc) ++ p.1 ++ ": " ++ p.2) ""

/-- Go fmt %v rendering of one template.Pair value: the struct fields wrapped
in braces and separated by one space. -/
def goFmtPair (p : String × String) : String := "\x7b" ++ p.1 ++ " " ++ p.2 ++ "\x7d"

/-- Go fmt %v rendering of a template.Pairs slice: the element renderings
separated by single spaces, wrapped in square brackets. -/
def goFmtPairList (ps : List (String × String)) : String :=
  "[" ++ String.intercalate " " (ps.map goFmtPair) ++ "]"

/-- getGroupKey from main.go: fmt.Sprintf of the sorted group-label pairs
with verb %v. -/
def getGroupKey (data : Data) : String :=
  goFmtPairList (sortedPairs data.groupLabels)

/-- The description field built by dataToIncidentParam. -/
def buildDescription (data : Data) : String :=
  "Group key: " ++ pairsCommaJoined (sortedPairs data.groupLabels)
    ++ "\nAlertManager receiver: " ++ data.receiver
    ++ "\nAlertManager source URL: " ++ data.externalURL

/-- One label or annotation line inside an alert block. -/
def pairLine (p : String × String) : String := "\n- " ++ p.1 ++ ": " ++ p.2

/-- The per-alert block built by the alertBuilder loop in
dataToIncidentParam: status and start time, then one line per sorted label,
then one line per sorted annotation. -/
def alertBlock (a : Alert) : String :=
  (sortedPairs a.annotations).foldl (fun acc p => acc ++ pairLine p)
    ((sortedPairs a.labels).foldl (fun acc p => acc ++ pairLine p)
      ("[" ++ a.status ++ "] " ++ a.startsAt))

/-- The comments field built by the commentBuilder loop in
dataToIncidentParam: the header, then for each alert in received order a
blank line and the alert's block. -/
def buildComments (data : Data) : String :=
  data.alerts.foldl (fun acc a => acc ++ "\n\n" ++ alertBlock a) "Alerts list:"

/-- dataToIncidentParam from main.go. -/
def dataToIncidentParam (cfg : Config) (data : Data) : IncidentParam :=
  { assignmentGroup := cfg.defaultIncident.assignmentGroup
    callerID := cfg.serviceNow.userName
    comments := buildComments data
    description := buildDescription data
    impact := cfg.defaultIncident.impact
    shortDescription := "[" ++ data.status ++ "] " ++ pairsCommaJoined (sortedPairs data.groupLabels)
    groupKey := getGroupKey data
    urgency := cfg.defaultIncident.urgency }

/-- One call issued against the ServiceNow gateway. -/
inductive GatewayCall where
  | getIncidents (params : List (String × String))
  | createIncident (incident : IncidentParam)
  | updateIncident (incident : IncidentParam) (sysID : String)
  deriving DecidableEq

/-- Recognizer for create calls in a gateway trace. -/
def GatewayCall.isCreate : GatewayCall → Bool
  | .createIncident _ => true
  | _ => false

/-- Recognizer for update calls in a gateway trace. -/
def GatewayCall.isUpdate : GatewayCall → Bool
  | .updateIncident _ _ => true
  | _ => false

/-- Modelled from the spec: the ServiceNow client (an external collaborator
whose implementation is not part of the core source) as an oracle giving
the result of each gateway operation. GetIncidents returns a Go-style pair
of incident list and optional error; CreateIncident and UpdateIncident
return the optional error main.go inspects. -/
structure GatewayBehavior where
  getIncidentsResult : List (String × String) → List Incident × Option String
  createIncidentResult : IncidentParam → Option String
  updateIncidentResult : IncidentParam → String → Option String

/-- manageIncidents from main.go, returning the list of gateway calls it
issues and the error value it returns (none models a nil error). The error
value of the GetIncidents call is assigned in the source but never tested:
the branch is taken on the length of the incident list alone, exactly as in
the source. -/
def manageIncidents (cfg : Config) (gw : GatewayBehavior) (data : Data) :
    List GatewayCall × Option String :=
  let groupKey := getGroupKey data
  let getParams := [(cfg.serviceNow.incidentGroupKeyField, groupKey)]
  let lookup := gw.getIncidentsResult getParams
  match lookup.1 with
  | [] =>
    let incident := dataToIncidentParam cfg data
    ([GatewayCall.getIncidents getParams, GatewayCall.createIncident incident],
      gw.createIncidentResult incident)
  | existingIncident :: _ =>
    let incident := dataToIncidentParam cfg data
    ([GatewayCall.getIncidents getParams,
      GatewayCall.updateIncident incident existingIncident.sysID],
      gw.updateIncidentResult incident existingIncident.sysID)

/-- Rendering described by the amended group-key claim, written from the
amended wording: sort the label pairs themselves by name ascending, print
each pair as an opening brace, the name, one space, the value and a closing
brace, join the renderings with single spaces and wrap them in square
brackets. -/
def specGroupKeyRendering (labels : List (String × String)) : String :=
  "[" ++ String.intercalate " "
    ((List.insertionSort pairLE labels).map
      (fun p => "\x7b" ++ p.1 ++ " " ++ p.2 ++ "\x7d")) ++ "]"

/-- Example static configuration. -/
def exampleConfig : Config :=
  { serviceNow :=
      { instanceName := "instance1"
        userName := "SNOW_USER"
        password := "SNOW_PASSWORD"
        incidentGroupKeyField := "u_other_reference_1" }
    defaultIncident :=
      { assignmentGroup := "ops"
        impact := "3"
        urgency := "3" } }

/-- Example notification with the group labels of the spec's create-path
example, listed in non-alphabetical order. -/
def exampleData : Data :=
  { receiver := "servicenow"
    status := "firing"
    alerts := []
    groupLabels := [("job", "node"), ("alertname", "HighCPU")]
    commonLabels := []
    commonAnnotations := []
    externalURL := "http://alertmanager.example" }

/-- The same notification with its group labels listed in the other
order. -/
def examplePermutedData : Data :=
  { receiver := "servicenow"
    status := "firing"
    alerts := []
    groupLabels := [("alertname", "HighCPU"), ("job", "node")]
    commonLabels := []
    commonAnnotations := []
    externalURL := "http://alertmanager.example" }

/-- Example notification with no group labels and no alerts. -/
def emptyLabelsData : Data :=
  { receiver := "servicenow"
    status := "resolved"
    alerts := []
    groupLabels := []
    commonLabels := []
    commonAnnotations := []
    externalURL := "http://alertmanager.example" }

/-- Example alert A for the comment-ordering claims. -/
def alertA : Alert :=
  { status := "firing"
    labels := [("severity", "page"), ("alertname", "HighCPU")]
    annotations := [("summary", "cpu is hot")]
    startsAt := "2023-01-01 10:00:00 +0000 UTC" }

/-- Example alert B for the comment-ordering claims. -/
def alertB : Alert :=
  { status := "resolved"
    labels := [("alertname", "DiskFull")]
    annotations := []
    startsAt := "2023-01-01 11:00:00 +0000 UTC" }

/-- Example notification carrying the two alerts in the order A then B. -/
def twoAlertData : Data :=
  { receiver := "servicenow"
    status := "firing"
    alerts := [alertA, alertB]
    groupLabels := [("alertname", "HighCPU")]
    commonLabels := []
    commonAnnotations := []
    externalURL := "http://alertmanager.example" }

/-- Gateway oracle whose lookup fails with an error and an empty incident
list (the usual Go convention of returning a nil slice together with a
non-nil error) and whose writes succeed. -/
def failingLookupGateway : GatewayBehavior :=
  { getIncidentsResult := fun _ => ([], some "ServiceNow lookup failed")
    createIncidentResult := fun _ => none
    updateIncidentResult := fun _ _ => none }

/-- Gateway oracle whose lookup succeeds with zero incidents and whose
writes succeed. -/
def emptyLookupGateway : GatewayBehavior :=
  { getIncidentsResult := fun _ => ([], none)
    createIncidentResult := fun _ => none
    updateIncidentResult := fun _ _ => none }

/-- First existing incident returned by the example lookup. -/
def incidentT1 : Incident := { sysID := "abc123", number := "INC0000001" }

/-- Second existing incident returned by the example lookup. -/
def incidentT2 : Incident := { sysID := "def456", number := "INC0000002" }

/-- Gateway oracle whose lookup succeeds with two incidents, T1 first, and
whose writes succeed. -/
def twoIncidentGateway : GatewayBehavior :=
  { getIncidentsResult := fun _ => ([incidentT1, incidentT2], none)
    createIncidentResult := fun _ => none
    updateIncidentResult := fun _ _ => none }

theorem kvGet_eq_of_mem (kv : List (String × String)) (k v : String)
    (hnd : (kv.map Prod.fst).Nodup) (hmem : (k, v) ∈ kv) : kvGet kv k = v := by
  induction kv with
  | nil => cases hmem
  | cons p kv ih =>
    rw [List.map_cons, List.nodup_cons] at hnd
    rcases List.mem_cons.mp hmem with h | h
    · rw [← h]
      simp [kvGet]
    · have hk : ¬ p.1 = k := by
        intro he
        exact hnd.1 (he ▸ List.mem_map.mpr ⟨(k, v), h, rfl⟩)
      simp only [kvGet, if_neg hk]
      exact ih hnd.2 h

theorem sortedPairs_names (kv : List (String × String)) :
    (sortedPairs kv).map Prod.fst = List.insertionSort strLE (kv.map Prod.fst) := by
  unfold sortedPairs
  rw [List.map_map]
  have h : (Prod.fst ∘ fun k : String => (k, kvGet kv k)) = id := rfl
  rw [h, List.map_id]

theorem sortedPairs_sortedNames (kv : List (String × String)) :
    List.Sorted strLE ((sortedPairs kv).map Prod.fst) := by
  rw [sortedPairs_names]
  exact List.sorted_insertionSort strLE _

theorem sortedPairs_sortedByName (kv : List (String × String)) :
    List.Pairwise pairLE (sortedPairs kv) :=
  (@List.pairwise_map (String × String) String Prod.fst strLE (sortedPairs kv)).mp
    (sortedPairs_sortedNames kv)

theorem sortedPairs_perm (kv : List (String × String))
    (hnd : (kv.map Prod.fst).Nodup) : (sortedPairs kv).Perm kv := by
  have hkeys : (List.insertionSort strLE (kv.map Prod.fst)).Perm (kv.map Prod.fst) :=
    List.perm_insertionSort strLE _
  have h1 : (sortedPairs kv).Perm ((kv.map Prod.fst).map (fun k => (k, kvGet kv k))) :=
    hkeys.map _
  have h2 : (kv.map Prod.fst).map (fun k => (k, kvGet kv k)) = kv := by
    rw [List.map_map]
    have hcong : ∀ p ∈ kv, ((fun k => (k, kvGet kv k)) ∘ Prod.fst) p = id p := by
      intro p hp
      have hv : kvGet kv p.1 = p.2 :=
        kvGet_eq_of_mem kv p.1 p.2 hnd (by simpa using hp)
      simp [Function.comp, hv]
    rw [List.map_congr_left hcong, List.map_id]
  rw [h2] at h1
  exact h1

theorem sortedPairs_eq_of_perm (kv₁ kv₂ : List (String × String))
    (hperm : kv₁.Perm kv₂) (hnd : (kv₁.map Prod.fst).Nodup) :
    sortedPairs kv₁ = sortedPairs kv₂ := by
  have hk : (kv₁.map Prod.fst).Perm (kv₂.map Prod.fst) := hperm.map _
  have hnd₂ : (kv₂.map Prod.fst).Nodup := hk.nodup hnd
  have hs : List.insertionSort strLE (kv₁.map Prod.fst)
      = List.insertionSort strLE (kv₂.map Prod.fst) := by
    apply List.eq_of_perm_of_sorted
      (((List.perm_insertionSort strLE _).trans hk).trans
        (List.perm_insertionSort strLE _).symm)
      (List.sorted_insertionSort strLE _) (List.sorted_insertionSort strLE _)
  unfold sortedPairs
  rw [← hs]
  apply List.map_congr_left
  intro k hkmem
  have hk1 : k ∈ kv₁.map Prod.fst :=
    (List.perm_insertionSort strLE _).mem_iff.mp hkmem
  obtain ⟨p, hp, hpk⟩ := List.mem_map.mp hk1
  have hmem1 : (k, p.2) ∈ kv₁ := by
    have he : (p.1, p.2) = p := rfl
    rw [← hpk]
    simpa [he] using hp
  have hv1 : kvGet kv₁ k = p.2 := kvGet_eq_of_mem kv₁ k p.2 hnd hmem1
  have hv2 : kvGet kv₂ k = p.2 :=
    kvGet_eq_of_mem kv₂ k p.2 hnd₂ (hperm.mem_iff.mp hmem1)
  rw [hv1, hv2]

/-- A list of pairs that is sorted by name and has no duplicate names is
sorted by the strict name order. -/
theorem pairwise_pairLT_of_sorted_nodup (l : List (String × String))
    (hs : List.Pairwise pairLE l) (hnd : (l.map Prod.fst).Nodup) :
    List.Pairwise pairLT l := by
  have hne : List.Pairwise (fun p q : String × String => p.1 ≠ q.1) l :=
    (@List.pairwise_map (String × String) String Prod.fst (· ≠ ·) l).mp hnd
  exact (hs.and hne).imp (fun h => ⟨h.1, h.2⟩)

/-- Sorting the pairs themselves by name agrees with the key-sort-and-look-up
of SortedPairs whenever the names are distinct (as they are in a Go map). -/
theorem insertionSort_pairs_eq_sortedPairs (kv : List (String × String))
    (hnd : (kv.map Prod.fst).Nodup) :
    List.insertionSort pairLE kv = sortedPairs kv := by
  have hperm : (List.insertionSort pairLE kv).Perm (sortedPairs kv) :=
    (List.perm_insertionSort pairLE kv).trans (sortedPairs_perm kv hnd).symm
  have hnd₁ : ((List.insertionSort pairLE kv).map Prod.fst).Nodup :=
    ((List.perm_insertionSort pairLE kv).map Prod.fst).symm.nodup hnd
  have hnd₂ : ((sortedPairs kv).map Prod.fst).Nodup :=
    ((sortedPairs_perm kv hnd).map Prod.fst).symm.nodup hnd
  exact List.eq_of_perm_of_sorted hperm
    (pairwise_pairLT_of_sorted_nodup _ (List.sorted_insertionSort pairLE kv) hnd₁)
    (pairwise_pairLT_of_sorted_nodup _ (sortedPairs_sortedByName kv) hnd₂)

/-- Claim C1 (the code contradicts it): when the incident lookup returns an
error together with an empty incident list, manageIncidents nevertheless
issues a create call and returns success, because the error value of the
GetIncidents call is assigned but never tested in the source before the
branch on the incident count. -/
theorem manageIncidents_ignores_lookup_error :
    ((manageIncidents exampleConfig failingLookupGateway exampleData).1.countP
        GatewayCall.isCreate = 1)
    ∧ (manageIncidents exampleConfig failingLookupGateway exampleData).2 = none := by
  decide

/-- Claim C2 counterexample: on the spec's own example labels the groupKey
field of the built incident is the Go %v rendering of the sorted pairs, not
the comma-joined name-colon-value rendering the claim states. -/
theorem groupKey_not_comma_rendering :
    (dataToIncidentParam exampleConfig exampleData).groupKey
        = "[\x7balertname HighCPU\x7d \x7bjob node\x7d]"
    ∧ (dataToIncidentParam exampleConfig exampleData).groupKey
        ≠ "alertname: HighCPU, job: node" := by
  decide

/-- Claim C2 (amended): for every notification whose group-label names are
distinct, the groupKey field of the built incident equals the rendering
obtained by sorting the label pairs by name ascending, printing each as a
brace-wrapped name-space-value block, joining the blocks with single spaces
and wrapping them in square brackets. -/
theorem groupKey_eq_sorted_go_rendering (cfg : Config) (data : Data)
    (hnd : (data.groupLabels.map Prod.fst).Nodup) :
    (dataToIncidentParam cfg data).groupKey
      = specGroupKeyRendering data.groupLabels := by
  show getGroupKey data = specGroupKeyRendering data.groupLabels
  unfold getGroupKey goFmtPairList specGroupKeyRendering
  rw [insertionSort_pairs_eq_sortedPairs data.groupLabels hnd]
  rfl

/-- Witness for the amended claim C2 at the example input. -/
theorem groupKey_eq_sorted_go_rendering_witness :
    (exampleData.groupLabels.map Prod.fst).Nodup
    ∧ (dataToIncidentParam exampleConfig exampleData).groupKey
        = specGroupKeyRendering exampleData.groupLabels :=
  ⟨by decide, groupKey_eq_sorted_go_rendering exampleConfig exampleData (by decide)⟩

/-- Claim C3: getGroupKey is invariant under permutation of the group
labels (label names being distinct within one group), and calling it twice
on the same input yields byte-identical strings. -/
theorem getGroupKey_perm_invariant (d₁ d₂ : Data)
    (hperm : d₁.groupLabels.Perm d₂.groupLabels)
    (hnd : (d₁.groupLabels.map Prod.fst).Nodup) :
    getGroupKey d₁ = getGroupKey d₂ ∧ getGroupKey d₁ = getGroupKey d₁ := by
  refine ⟨?_, rfl⟩
  unfold getGroupKey
  rw [sortedPairs_eq_of_perm d₁.groupLabels d₂.groupLabels hperm hnd]

/-- Witness for claim C3 on two permuted label lists. -/
theorem getGroupKey_perm_invariant_witness :
    getGroupKey exampleData = getGroupKey examplePermutedData
    ∧ getGroupKey exampleData = getGroupKey exampleData :=
  getGroupKey_perm_invariant exampleData examplePermutedData
    (List.Perm.swap ("alertname", "HighCPU") ("job", "node") []) (by decide)

/-- Claim C4: when the lookup returns one or more incidents, manageIncidents
issues exactly one update call, targeted at the sys_id of the first
returned incident, and no create call. -/
theorem manageIncidents_update_path (cfg : Config) (gw : GatewayBehavior)
    (data : Data) (inc : Incident) (rest : List Incident) (errOpt : Option String)
    (hget : gw.getIncidentsResult
        [(cfg.serviceNow.incidentGroupKeyField, getGroupKey data)]
      = (inc :: rest, errOpt)) :
    (manageIncidents cfg gw data).1
      = [GatewayCall.getIncidents
            [(cfg.serviceNow.incidentGroupKeyField, getGroupKey data)],
          GatewayCall.updateIncident (dataToIncidentParam cfg data) inc.sysID]
    ∧ ((manageIncidents cfg gw data).1.countP GatewayCall.isUpdate = 1)
    ∧ ((manageIncidents cfg gw data).1.countP GatewayCall.isCreate = 0) := by
  have htrace : (manageIncidents cfg gw data).1
      = [GatewayCall.getIncidents
            [(cfg.serviceNow.incidentGroupKeyField, getGroupKey data)],
          GatewayCall.updateIncident (dataToIncidentParam cfg data) inc.sysID] := by
    simp [manageIncidents, hget]
  refine ⟨htrace, ?_, ?_⟩ <;> rw [htrace] <;> rfl

/-- Witness for claim C4 with a lookup returning two incidents. -/
theorem manageIncidents_update_path_witness :
    twoIncidentGateway.getIncidentsResult
        [(exampleConfig.serviceNow.incidentGroupKeyField, getGroupKey exampleData)]
      = (incidentT1 :: [incidentT2], none)
    ∧ ((manageIncidents exampleConfig twoIncidentGateway exampleData).1
        = [GatewayCall.getIncidents
              [(exampleConfig.serviceNow.incidentGroupKeyField, getGroupKey exampleData)],
            GatewayCall.updateIncident
              (dataToIncidentParam exampleConfig exampleData) incidentT1.sysID]
      ∧ ((manageIncidents exampleConfig twoIncidentGateway exampleData).1.countP
            GatewayCall.isUpdate = 1)
      ∧ ((manageIncidents exampleConfig twoIncidentGateway exampleData).1.countP
            GatewayCall.isCreate = 0)) :=
  ⟨rfl, manageIncidents_update_path exampleConfig twoIncidentGateway exampleData
    incidentT1 [incidentT2] none rfl⟩

/-- Claim C5: on a firing notification whose lookup succeeds with zero
incidents, manageIncidents issues exactly one create call and no update
call, and the created incident's shortDescription is the firing tag
followed by the comma-joined sorted label rendering. -/
theorem manageIncidents_create_path (cfg : Config) (gw : GatewayBehavior)
    (data : Data) (hstatus : data.status = "firing")
    (hget : gw.getIncidentsResult
        [(cfg.serviceNow.incidentGroupKeyField, getGroupKey data)] = ([], none)) :
    (manageIncidents cfg gw data).1
      = [GatewayCall.getIncidents
            [(cfg.serviceNow.incidentGroupKeyField, getGroupKey data)],
          GatewayCall.createIncident (dataToIncidentParam cfg data)]
    ∧ ((manageIncidents cfg gw data).1.countP GatewayCall.isCreate = 1)
    ∧ ((manageIncidents cfg gw data).1.countP GatewayCall.isUpdate = 0)
    ∧ (dataToIncidentParam cfg data).shortDescription
        = "[firing] " ++ pairsCommaJoined (sortedPairs data.groupLabels) := by
  have htrace : (manageIncidents cfg gw data).1
      = [GatewayCall.getIncidents
            [(cfg.serviceNow.incidentGroupKeyField, getGroupKey data)],
          GatewayCall.createIncident (dataToIncidentParam cfg data)] := by
    simp [manageIncidents, hget]
  refine ⟨htrace, ?_, ?_, ?_⟩
  · rw [htrace]; rfl
  · rw [htrace]; rfl
  · show "[" ++ data.status ++ "] " ++ pairsCommaJoined (sortedPairs data.groupLabels) = _
    rw [hstatus, show ("[" ++ "firing" ++ "] " : String) = "[firing] " from by decide]

/-- Witness for claim C5 at the example firing notification. -/
theorem manageIncidents_create_path_witness :
    exampleData.status = "firing"
    ∧ emptyLookupGateway.getIncidentsResult
        [(exampleConfig.serviceNow.incidentGroupKeyField, getGroupKey exampleData)]
      = ([], none)
    ∧ ((manageIncidents exampleConfig emptyLookupGateway exampleData).1
        = [GatewayCall.getIncidents
              [(exampleConfig.serviceNow.incidentGroupKeyField, getGroupKey exampleData)],
            GatewayCall.createIncident (dataToIncidentParam exampleConfig exampleData)]
      ∧ ((manageIncidents exampleConfig emptyLookupGateway exampleData).1.countP
            GatewayCall.isCreate = 1)
      ∧ ((manageIncidents exampleConfig emptyLookupGateway exampleData).1.countP
            GatewayCall.isUpdate = 0)
      ∧ (dataToIncidentParam exampleConfig exampleData).shortDescription
          = "[firing] " ++ pairsCommaJoined (sortedPairs exampleData.groupLabels)) :=
  ⟨rfl, rfl, manageIncidents_create_path exampleConfig emptyLookupGateway exampleData
    rfl rfl⟩

/-- Claim C6 counterexample: with no group labels the groupKey field is the
Go %v rendering of an empty slice, which is the two-character bracket
string, not the empty string the claim states. -/
theorem emptyLabels_groupKey_not_empty :
    (dataToIncidentParam exampleConfig emptyLabelsData).groupKey = "[]"
    ∧ (dataToIncidentParam exampleConfig emptyLabelsData).groupKey ≠ "" := by
  decide

/-- Claim C6 (amended): with no group labels the shortDescription is the
bracketed status followed by one space and an empty suffix, the groupKey
field is the bracket-pair string, and the engine still processes the
notification, issuing exactly one write. -/
theorem emptyLabels_behavior (cfg : Config) (gw : GatewayBehavior) (data : Data)
    (h : data.groupLabels = []) :
    (dataToIncidentParam cfg data).shortDescription = "[" ++ data.status ++ "] "
    ∧ (dataToIncidentParam cfg data).groupKey = "[]"
    ∧ (((manageIncidents cfg gw data).1.countP GatewayCall.isCreate)
        + ((manageIncidents cfg gw data).1.countP GatewayCall.isUpdate) = 1) := by
  refine ⟨?_, ?_, ?_⟩
  · show "[" ++ data.status ++ "] " ++ pairsCommaJoined (sortedPairs data.groupLabels) = _
    rw [h]
    show ("[" ++ data.status ++ "] ") ++ "" = "[" ++ data.status ++ "] "
    exact String.append_empty _
  · show getGroupKey data = "[]"
    unfold getGroupKey
    rw [h]
    decide
  · rcases hh : (gw.getIncidentsResult
        [(cfg.serviceNow.incidentGroupKeyField, getGroupKey data)]).1 with _ | ⟨inc, rest⟩ <;>
      simp [manageIncidents, hh, List.countP, List.countP.go,
        GatewayCall.isCreate, GatewayCall.isUpdate]

/-- Witness for the amended claim C6 at the empty-label notification. -/
theorem emptyLabels_behavior_witness :
    emptyLabelsData.groupLabels = []
    ∧ ((dataToIncidentParam exampleConfig emptyLabelsData).shortDescription
        = "[" ++ emptyLabelsData.status ++ "] "
      ∧ (dataToIncidentParam exampleConfig emptyLabelsData).groupKey = "[]"
      ∧ (((manageIncidents exampleConfig emptyLookupGateway emptyLabelsData).1.countP
            GatewayCall.isCreate)
          + ((manageIncidents exampleConfig emptyLookupGateway emptyLabelsData).1.countP
            GatewayCall.isUpdate) = 1)) :=
  ⟨rfl, emptyLabels_behavior exampleConfig emptyLookupGateway emptyLabelsData rfl⟩

/-- Claim C7: with two alerts delivered in the order A then B, the comments
text contains A's block strictly before B's block (alerts are rendered in
received order), while the label and annotation pair lists rendered inside
each block are sorted by name. -/
theorem comments_preserve_alert_order (cfg : Config) (data : Data) (a b : Alert)
    (h : data.alerts = [a, b]) :
    (∃ pre mid, (dataToIncidentParam cfg data).comments
        = pre ++ alertBlock a ++ (mid ++ alertBlock b))
    ∧ List.Pairwise pairLE (sortedPairs a.labels)
    ∧ List.Pairwise pairLE (sortedPairs a.annotations)
    ∧ List.Pairwise pairLE (sortedPairs b.labels)
    ∧ List.Pairwise pairLE (sortedPairs b.annotations) := by
  refine ⟨⟨"Alerts list:" ++ "\n\n", "\n\n", ?_⟩, sortedPairs_sortedByName _,
    sortedPairs_sortedByName _, sortedPairs_sortedByName _, sortedPairs_sortedByName _⟩
  show buildComments data = _
  unfold buildComments
  rw [h]
  simp only [List.foldl_cons, List.foldl_nil]
  exact String.append_assoc _ _ _

/-- Witness for claim C7 at the two-alert notification. -/
theorem comments_preserve_alert_order_witness :
    (∃ pre mid, (dataToIncidentParam exampleConfig twoAlertData).comments
        = pre ++ alertBlock alertA ++ (mid ++ alertBlock alertB))
    ∧ List.Pairwise pairLE (sortedPairs alertA.labels)
    ∧ List.Pairwise pairLE (sortedPairs alertA.annotations)
    ∧ List.Pairwise pairLE (sortedPairs alertB.labels)
    ∧ List.Pairwise pairLE (sortedPairs alertB.annotations) :=
  comments_preserve_alert_order exampleConfig twoAlertData alertA alertB rfl

/-- Claim C8: with no alerts the comments field is exactly the header
line. -/
theorem comments_empty_alerts (cfg : Config) (data : Data)
    (h : data.alerts = []) :
    (dataToIncidentParam cfg data).comments = "Alerts list:" := by
  show buildComments data = _
  unfold buildComments
  rw [h]
  rfl

/-- Witness for claim C8 at the empty-alert notification. -/
theorem comments_empty_alerts_witness :
    (dataToIncidentParam exampleConfig emptyLabelsData).comments = "Alerts list:" :=
  comments_empty_alerts exampleConfig emptyLabelsData rfl

/-- Claim C9: for one fixed configuration and any two notifications, the
assignmentGroup, callerID, impact and urgency fields of the built incidents
coincide; they are read from the configuration only. -/
theorem staticFields_payload_independent (cfg : Config) (d₁ d₂ : Data) :
    (dataToIncidentParam cfg d₁).assignmentGroup
        = (dataToIncidentParam cfg d₂).assignmentGroup
    ∧ (dataToIncidentParam cfg d₁).callerID = (dataToIncidentParam cfg d₂).callerID
    ∧ (dataToIncidentParam cfg d₁).impact = (dataToIncidentParam cfg d₂).impact
    ∧ (dataToIncidentParam cfg d₁).urgency = (dataToIncidentParam cfg d₂).urgency :=
  ⟨rfl, rfl, rfl, rfl⟩

/-- Claim C10: one invocation of manageIncidents issues exactly one write
against the gateway: either one create and no update, or one update and no
create, whatever the lookup returns. -/
theorem manageIncidents_single_write (cfg : Config) (gw : GatewayBehavior)
    (data : Data) :
    (((manageIncidents cfg gw data).1.countP GatewayCall.isCreate = 1)
      ∧ ((manageIncidents cfg gw data).1.countP GatewayCall.isUpdate = 0))
    ∨ (((manageIncidents cfg gw data).1.countP GatewayCall.isCreate = 0)
      ∧ ((manageIncidents cfg gw data).1.countP GatewayCall.isUpdate = 1)) := by
  rcases hh : (gw.getIncidentsResult
      [(cfg.serviceNow.incidentGroupKeyField, getGroupKey data)]).1 with _ | ⟨inc, rest⟩
  · left
    constructor <;>
      simp [manageIncidents, hh, List.countP, List.countP.go,
        GatewayCall.isCreate, GatewayCall.isUpdate]
  · right
    constructor <;>
      simp [manageIncidents, hh, List.countP, List.countP.go,
        GatewayCall.isCreate, GatewayCall.isUpdate]

end SnWebhook
